import Mathlib

/-!
Shallow embedding of the collections page (src/components/pages/Collections.tsx)
and the generic tabular exporter (the export utility module), together with
theorems settling the specification claims about them.

Modelling conventions:
- JavaScript numbers that hold currency amounts are modelled as `Int`
  (all balances in the claims are integral); `Math.max` becomes `max`.
- Possibly-undefined fields are `Option`; JavaScript truthiness of strings
  treats the empty string as falsy, which the helpers below reproduce.
- Dates are modelled by their epoch value as a `Nat`: the page stores
  `order.date` and compares records with `new Date(x).getTime()`, so a record
  carries the numeric time directly.  An absent date falls back to the
  current date (`today` parameter).
- `localStorage.completedCollections` is a JSON array.  The page writes plain
  string ids into it (`completedCollections.push(selectedCollection.id)`) but
  reads it with `completedCollections.map(c => c.id)`.  `CacheEntry` has a
  constructor for each shape a stored element can have, and `entryDotId`
  models the JavaScript property access `c.id` (on a plain string it yields
  `undefined`, i.e. `none`).
- The two backing-store calls (supabase `update` on `orders` and `customers`)
  are modelled by injecting their returned error (`Option String`) as inputs;
  the code checks the first (`if (orderError) throw orderError`) and ignores
  the result of the second.
- `toLocaleString("en-IN")` on a nonnegative integral number produces the
  digits grouped Indian style (last group of three, then groups of two,
  separated by commas); `natToDigitsRevFuel` and `indianGroupRev` implement
  exactly that, with structural fuel so that everything reduces.
- Unconditional console debug logging carries no decisions and is not
  modelled; the two per-order skip diagnostics, the recognition error log and
  the user-visible alerts are modelled because claims mention them.
-/

namespace Webapp

/-- JavaScript `a || b` for an optional string `a` (absent or empty is falsy). -/
def jsOrStr (a : Option String) (b : String) : String :=
  match a with
  | some s => if s = "" then b else s
  | none => b

/-- String interpolation of a possibly-undefined value, as in template literals. -/
def jsOptStr : Option String → String
  | some s => s
  | none => "undefined"

/-- JavaScript `s.includes(sub)`: `sub` occurs contiguously inside `s`. -/
def jsIncludes (s sub : String) : Bool :=
  decide (sub.data <:+: s.data)

/-- Decimal digits of `n`, least significant first, with structural fuel. -/
def natToDigitsRevFuel : Nat → Nat → List Char
  | 0, _ => []
  | fuel + 1, n =>
    if n < 10 then [Char.ofNat (48 + n)]
    else Char.ofNat (48 + n % 10) :: natToDigitsRevFuel fuel (n / 10)

/-- Decimal digits of `n`, least significant first. -/
def natToDigitsRev (n : Nat) : List Char :=
  natToDigitsRevFuel (n + 1) n

/-- Insert commas into a reversed digit list: after three digits, then after
every further two, as `toLocaleString("en-IN")` groups integers. -/
def indianGroupRev : Nat → List Char → List Char
  | _, [] => []
  | 0, c :: cs => ',' :: c :: indianGroupRev 1 cs
  | k + 1, c :: cs => c :: indianGroupRev k cs

/-- `n.toLocaleString("en-IN")` for a natural number. -/
def natLocaleEnIN (n : Nat) : String :=
  String.mk (indianGroupRev 3 (natToDigitsRev n)).reverse

/-- `a.toLocaleString("en-IN", maximumFractionDigits 2)` for an integral amount. -/
def intLocaleEnIN (a : Int) : String :=
  if a < 0 then "-" ++ natLocaleEnIN a.natAbs else natLocaleEnIN a.toNat

/-- The module-level `formatCurrency` helper; every call site in the page uses
the default currency "LKR". -/
def formatCurrency (amount : Int) (currency : String) : String :=
  currency ++ " " ++ intLocaleEnIN amount

inductive CollectionType where
  | credit
  | cheque
deriving DecidableEq, BEq

inductive CollectionStatus where
  | pending
  | complete
deriving DecidableEq, BEq

/-- The derived `CollectionRecord` interface of the page.  `collectedAt` holds
the numeric date value (see the module comment). -/
structure CollectionRecord where
  id : String
  orderId : String
  customerId : String
  customerName : String
  collectionType : CollectionType
  amount : Int
  collectedBy : String
  collectedAt : Nat
  status : CollectionStatus
  notes : String
deriving DecidableEq, BEq

/-- The order fields the collections page reads.  `total` and `status` appear
only in unconditional debug logs and are omitted. -/
structure Order where
  id : String
  customerId : String
  customerName : Option String
  assignedUserId : Option String
  creditBalance : Option Int
  chequeBalance : Option Int
  date : Option Nat
  notes : Option String
deriving DecidableEq, BEq

structure Customer where
  id : String
  name : String
  outstandingBalance : Option Int
deriving DecidableEq, BEq

structure User where
  id : String
  name : String
  email : String
deriving DecidableEq, BEq

/-- One element of the JSON array persisted under the
`completedCollections` key in local storage: either a plain string (what
recognition appends) or an object carrying an `id` field (what the
derivation-side read expects). -/
inductive CacheEntry where
  | str (s : String)
  | obj (id : String)
deriving DecidableEq, BEq

/-- The JavaScript property access `c.id` on a cache element: on an object it
reads the field, on a plain string it yields `undefined`. -/
def entryDotId : CacheEntry → Option String
  | CacheEntry.str _ => none
  | CacheEntry.obj i => some i

/-- `order.notes && order.notes.includes("COLLECTION_COMPLETED")` as a Bool. -/
def notesMarker : Option String → Bool
  | some s => jsIncludes s "COLLECTION_COMPLETED"
  | none => false

/-- `users.find(u => u.email === currentUser?.email)`: when no user is
authenticated the comparison is against `undefined` and never matches. -/
def findByEmail (users : List User) : Option User → Option User
  | some cu => users.find? (fun u => u.email == cu.email)
  | none => none

/-- `users.find(u => u.id === order.assignedUserId) ||
    users.find(u => u.email === currentUser?.email)`. -/
def resolveCollector (users : List User) (currentUser : Option User)
    (assignedUserId : Option String) : Option User :=
  match users.find? (fun u => assignedUserId == some u.id) with
  | some u => some u
  | none => findByEmail users currentUser

/-- The body of the per-order iteration of the derivation effect: the records
this order contributes and the skip diagnostics it logs. -/
def recordsForOrder (customers : List Customer) (users : List User)
    (currentUser : Option User) (completedIds : List (Option String))
    (today : Nat) (o : Order) : List CollectionRecord × List String :=
  match customers.find? (fun c => c.id == o.customerId) with
  | none =>
    ([], ["Debug - No customer found for order " ++ o.id ++ ", customerId: " ++ o.customerId])
  | some customer =>
    match resolveCollector users currentUser o.assignedUserId with
    | none =>
      ([], ["Debug - No user found for order " ++ o.id ++ ", assignedUserId: "
             ++ jsOptStr o.assignedUserId])
    | some collectedBy =>
      let isCollectionCompleted := notesMarker o.notes
      let creditRecs : List CollectionRecord :=
        match o.creditBalance with
        | none => []
        | some b =>
          if b ≠ 0 ∧ 0 < b then
            [{ id := o.id ++ "-credit", orderId := o.id, customerId := o.customerId,
               customerName := jsOrStr o.customerName customer.name,
               collectionType := CollectionType.credit, amount := b,
               collectedBy := collectedBy.name, collectedAt := o.date.getD today,
               status :=
                 if completedIds.contains (some (o.id ++ "-credit")) || isCollectionCompleted
                 then CollectionStatus.complete else CollectionStatus.pending,
               notes :=
                 if completedIds.contains (some (o.id ++ "-credit")) || isCollectionCompleted
                 then "Previously completed" else "" }]
          else []
      let chequeRecs : List CollectionRecord :=
        match o.chequeBalance with
        | none => []
        | some b =>
          if b ≠ 0 ∧ 0 < b then
            [{ id := o.id ++ "-cheque", orderId := o.id, customerId := o.customerId,
               customerName := jsOrStr o.customerName customer.name,
               collectionType := CollectionType.cheque, amount := b,
               collectedBy := collectedBy.name, collectedAt := o.date.getD today,
               status :=
                 if completedIds.contains (some (o.id ++ "-cheque")) || isCollectionCompleted
                 then CollectionStatus.complete else CollectionStatus.pending,
               notes :=
                 if completedIds.contains (some (o.id ++ "-cheque")) || isCollectionCompleted
                 then "Previously completed" else "" }]
          else []
      (creditRecs ++ chequeRecs, [])

structure DeriveOutcome where
  records : List CollectionRecord
  diagnostics : List String
deriving DecidableEq, BEq

/-- The `orders.forEach` loop of the derivation effect. -/
def deriveLoop (customers : List Customer) (users : List User)
    (currentUser : Option User) (completedIds : List (Option String))
    (today : Nat) : List Order → DeriveOutcome
  | [] => ⟨[], []⟩
  | o :: rest =>
    let step := recordsForOrder customers users currentUser completedIds today o
    let restOut := deriveLoop customers users currentUser completedIds today rest
    ⟨step.1 ++ restOut.records, step.2 ++ restOut.diagnostics⟩

/-- The whole derivation effect: reads the local-storage cache, maps `c.id`
over its elements to build the completed-id set, then walks the orders. -/
def deriveCollections (orders : List Order) (customers : List Customer)
    (users : List User) (currentUser : Option User)
    (cache : List CacheEntry) (today : Nat) : DeriveOutcome :=
  deriveLoop customers users currentUser (cache.map entryDotId) today orders

inductive StatusFilter where
  | all
  | pending
  | complete
deriving DecidableEq, BEq

inductive TypeFilter where
  | all
  | credit
  | cheque
deriving DecidableEq, BEq

/-- `c.status === statusFilter` (never true for the filter value "all",
matching the strict equality in the source). -/
def statusEq : CollectionStatus → StatusFilter → Bool
  | CollectionStatus.pending, StatusFilter.pending => true
  | CollectionStatus.complete, StatusFilter.complete => true
  | _, _ => false

/-- `c.collectionType === typeFilter`. -/
def typeEq : CollectionType → TypeFilter → Bool
  | CollectionType.credit, TypeFilter.credit => true
  | CollectionType.cheque, TypeFilter.cheque => true
  | _, _ => false

/-- Insert one record into a list sorted by `collectedAt` descending, as the
comparator `(a, b) => dateOf(b) - dateOf(a)` orders it. -/
def insertByDate (r : CollectionRecord) : List CollectionRecord → List CollectionRecord
  | [] => [r]
  | x :: xs =>
    if r.collectedAt ≤ x.collectedAt then x :: insertByDate r xs else r :: x :: xs

/-- Sort by `collectedAt` descending. -/
def sortByDateDesc : List CollectionRecord → List CollectionRecord
  | [] => []
  | r :: rs => insertByDate r (sortByDateDesc rs)

def statusFiltered (sF : StatusFilter) (cols : List CollectionRecord) : List CollectionRecord :=
  if sF ≠ StatusFilter.all then cols.filter (fun c => statusEq c.status sF) else cols

def typeFiltered (tF : TypeFilter) (cols : List CollectionRecord) : List CollectionRecord :=
  if tF ≠ TypeFilter.all then cols.filter (fun c => typeEq c.collectionType tF) else cols

/-- The `filteredCollections` memo: status filter, then type filter, then sort
by date descending. -/
def filteredCollections (sF : StatusFilter) (tF : TypeFilter)
    (collections : List CollectionRecord) : List CollectionRecord :=
  sortByDateDesc (typeFiltered tF (statusFiltered sF collections))

/-- The status-filter predicate applied on its own (filter value "all" passes
everything). -/
def statusPass (sF : StatusFilter) (c : CollectionRecord) : Bool :=
  match sF with
  | StatusFilter.all => true
  | _ => statusEq c.status sF

/-- The type-filter predicate applied on its own. -/
def typePass (tF : TypeFilter) (c : CollectionRecord) : Bool :=
  match tF with
  | TypeFilter.all => true
  | _ => typeEq c.collectionType tF

/-- `selectedCollection.collectionType.toUpperCase()`. -/
def typeUpper : CollectionType → String
  | CollectionType.credit => "CREDIT"
  | CollectionType.cheque => "CHEQUE"

/-- The generated audit string recognition writes into the order notes:
type in upper case, formatted amount, actor name, optional verification
notes.  It is built from these inputs alone, so it replaces rather than
appends to any prior notes. -/
def auditNotes (t : CollectionType) (amount : Int) (actorName : Option String)
    (verificationNotes : String) : String :=
  typeUpper t
  ++ " collection of " ++ formatCurrency amount "LKR" ++ " completed by "
  ++ jsOptStr actorName ++ ". "
  ++ (if verificationNotes ≠ "" then "Notes: " ++ verificationNotes else "")

/-- The `updatedOrderData` payload of the orders-table update: the notes
field, and exactly the balance column matching the collection type set to
zero (the column names are the lowercase database names used in the source).
A `none` balance column is not part of the update. -/
structure OrderUpdate where
  notes : String
  creditbalance : Option Int
  chequebalance : Option Int
deriving DecidableEq, BEq

def updatedOrderData (sel : CollectionRecord) (currentUserName : Option String)
    (verificationNotes : String) : OrderUpdate :=
  { notes := auditNotes sel.collectionType sel.amount currentUserName verificationNotes,
    creditbalance := if sel.collectionType = CollectionType.credit then some 0 else none,
    chequebalance := if sel.collectionType = CollectionType.cheque then some 0 else none }

/-- Observable outcome of one run of `handleRecognizeCollection`. -/
structure RecognizeOutcome where
  /-- The orders-table write as applied by the store (`none` if the call
  returned an error or never ran). -/
  appliedOrderWrite : Option OrderUpdate
  /-- The `outstandingbalance` value sent to the customers table
  (`none` if the customer was not found or the flow aborted first). -/
  customerUpdateIssued : Option Int
  /-- The customers-table write as applied (`none` if it returned an error). -/
  appliedCustomerWrite : Option Int
  /-- Final contents of the local-storage completed list. -/
  cache : List CacheEntry
  /-- The in-memory collections after the optimistic flip. -/
  collections : List CollectionRecord
  /-- Whether the full reload of orders, customers and users ran. -/
  refetched : Bool
  /-- User-visible alerts raised. -/
  alerts : List String
  /-- Console error log entries. -/
  errorLog : List String
  /-- Whether the modal selection and verification notes were cleared. -/
  selectedCleared : Bool
deriving DecidableEq, BEq

/-- The recognition flow.  `orderErr` and `customerErr` inject the error
results of the two backing-store update calls.  The source checks the first
(`if (orderError) throw orderError`) and never reads the second. -/
def handleRecognizeCollection (customers : List Customer)
    (currentUserName : Option String) (sel : CollectionRecord)
    (verificationNotes : String) (cache0 : List CacheEntry)
    (collections0 : List CollectionRecord)
    (orderErr customerErr : Option String) : RecognizeOutcome :=
  match orderErr with
  | some e =>
    { appliedOrderWrite := none, customerUpdateIssued := none,
      appliedCustomerWrite := none, cache := cache0, collections := collections0,
      refetched := false,
      alerts := ["Failed to recognize collection. Please try again."],
      errorLog := ["Error recognizing collection: " ++ e],
      selectedCleared := false }
  | none =>
    let customerIssued : Option Int :=
      match customers.find? (fun c => c.id == sel.customerId) with
      | some customer => some (max 0 (customer.outstandingBalance.getD 0 - sel.amount))
      | none => none
    let appliedCustomer : Option Int :=
      match customerErr with
      | some _ => none
      | none => customerIssued
    let cache1 :=
      if cache0.contains (CacheEntry.str sel.id) then cache0
      else cache0 ++ [CacheEntry.str sel.id]
    let collections1 :=
      collections0.map (fun c =>
        if c.id == sel.id
        then { c with status := CollectionStatus.complete, notes := verificationNotes }
        else c)
    { appliedOrderWrite := some (updatedOrderData sel currentUserName verificationNotes),
      customerUpdateIssued := customerIssued,
      appliedCustomerWrite := appliedCustomer,
      cache := cache1, collections := collections1, refetched := true,
      alerts := [typeUpper sel.collectionType ++ " collection of "
                  ++ formatCurrency sel.amount "LKR"
                  ++ " has been completed and all outstanding amounts updated!"],
      errorLog := [], selectedCleared := true }

inductive ExportFormat where
  | csv
  | xlsx
deriving DecidableEq, BEq

/-- One entry of `worksheet.columns`. -/
structure ExColumn where
  header : String
  key : String
  width : Nat
deriving DecidableEq, BEq

/-- The worksheet the exporter builds before encoding. -/
structure Worksheet where
  sheetName : String
  columns : List ExColumn
  rows : List (List (String × String))
deriving DecidableEq, BEq

/-- The artifact handed to `saveAs`; the encoded buffer is represented by the
worksheet it was produced from together with the chosen format. -/
structure SavedFile where
  filename : String
  mime : String
  fmt : ExportFormat
  source : Worksheet
deriving DecidableEq, BEq

structure ExportOutcome where
  alerts : List String
  saved : Option SavedFile
  worksheet : Option Worksheet
deriving DecidableEq, BEq

/-- The generic `exportData` function.  A record is an ordered list of
key-value pairs; `Object.keys(data[0])` is the first record's key list. -/
def exportData (data : Option (List (List (String × String)))) (filename : String)
    (format : ExportFormat) (sheetName : String) : ExportOutcome :=
  match data with
  | none => { alerts := ["No data to export"], saved := none, worksheet := none }
  | some d =>
    if d.length = 0 then
      { alerts := ["No data to export"], saved := none, worksheet := none }
    else
      let columns : List ExColumn :=
        if 0 < d.length then
          (d.headD []).map (fun kv => { header := kv.1, key := kv.1, width := 20 })
        else []
      let ws : Worksheet := { sheetName := sheetName, columns := columns, rows := d }
      match format with
      | ExportFormat.csv =>
        { alerts := [],
          saved := some { filename := filename ++ ".csv",
                          mime := "text/csv;charset=utf-8",
                          fmt := ExportFormat.csv, source := ws },
          worksheet := some ws }
      | ExportFormat.xlsx =>
        { alerts := [],
          saved := some { filename := filename ++ ".xlsx",
                          mime := "application/vnd.openxmlformats-officedocument.spreadsheetml.sheet",
                          fmt := ExportFormat.xlsx, source := ws },
          worksheet := some ws }

/-! Helper lemmas about contiguous occurrences in lists. -/

/-- If `t ++ r = a ++ b`, then `t` stops inside `a` or swallows all of `a`. -/
theorem preSplit {α : Type} {t a b r : List α} (h : t ++ r = a ++ b) :
    t <+: a ∨ ∃ t₂, a ++ t₂ = t ∧ t₂ <+: b := by
  induction a generalizing t with
  | nil => exact Or.inr ⟨t, by simp, ⟨r, by simpa using h⟩⟩
  | cons x a ih =>
    cases t with
    | nil => exact Or.inl ⟨x :: a, rfl⟩
    | cons y t =>
      simp only [List.cons_append, List.cons.injEq] at h
      obtain ⟨rfl, h2⟩ := h
      rcases ih h2 with h3 | ⟨t₂, he, hp⟩
      · obtain ⟨r2, hr⟩ := h3
        exact Or.inl ⟨r2, by simp [hr]⟩
      · exact Or.inr ⟨t₂, by simp [he], hp⟩

/-- A contiguous occurrence in `a ++ b` lies in `a`, lies in `b`, or crosses
the boundary with a nonempty part on each side. -/
theorem occSplit {α : Type} {t a b : List α} (h : t <:+: a ++ b) :
    t <:+: a ∨ t <:+: b ∨
      ∃ t₁ t₂, t₁ ++ t₂ = t ∧ t₁ ≠ [] ∧ t₂ ≠ [] ∧ t₁ <:+ a ∧ t₂ <+: b := by
  obtain ⟨s, u, hsu⟩ := h
  induction s generalizing a with
  | nil =>
    simp only [List.nil_append] at hsu
    rcases preSplit hsu with hp | ⟨t₂, he, hp⟩
    · obtain ⟨r2, hr⟩ := hp
      exact Or.inl ⟨[], r2, by simpa using hr⟩
    · rcases eq_or_ne a [] with rfl | hane
      · simp only [List.nil_append] at he
        subst he
        obtain ⟨r, hr⟩ := hp
        exact Or.inr (Or.inl ⟨[], r, by simpa using hr⟩)
      · rcases eq_or_ne t₂ [] with rfl | h2ne
        · refine Or.inl ⟨[], [], ?_⟩
          simpa using he.symm
        · exact Or.inr (Or.inr ⟨a, t₂, he, hane, h2ne, ⟨[], rfl⟩, hp⟩)
  | cons x s ih =>
    cases a with
    | nil =>
      simp only [List.nil_append] at hsu
      exact Or.inr (Or.inl ⟨x :: s, u, by simpa using hsu⟩)
    | cons y a =>
      simp only [List.cons_append, List.cons.injEq] at hsu
      obtain ⟨rfl, h2⟩ := hsu
      rcases ih h2 with h3 | h3 | ⟨t₁, t₂, ht, h1ne, h2ne, ⟨s₂, hs₂⟩, hpre⟩
      · obtain ⟨s₁, u₁, h₁⟩ := h3
        exact Or.inl ⟨x :: s₁, u₁, by simp [h₁]⟩
      · exact Or.inr (Or.inl h3)
      · exact Or.inr (Or.inr ⟨t₁, t₂, ht, h1ne, h2ne, ⟨x :: s₂, by simp [hs₂]⟩, hpre⟩)

/-- Occurrences cannot cross a separator element that is not in the pattern. -/
theorem notOcc_append_sep {α : Type} {t a b : List α} {c : α}
    (hc : c ∉ t) (ha : ¬ t <:+: a) (hb : ¬ t <:+: b) : ¬ t <:+: a ++ c :: b := by
  intro h
  rcases occSplit h with h1 | h2 | ⟨t₁, t₂, ht, h1ne, h2ne, hsuf, hpre⟩
  · exact ha h1
  · obtain ⟨s, u, hsu⟩ := h2
    cases s with
    | nil =>
      cases t with
      | nil => exact ha ⟨[], a, by simp⟩
      | cons d t2 =>
        simp only [List.nil_append, List.cons_append, List.cons.injEq] at hsu
        obtain ⟨rfl, -⟩ := hsu
        exact hc (List.mem_cons_self _ _)
    | cons e s2 =>
      simp only [List.cons_append, List.cons.injEq] at hsu
      exact hb ⟨s2, u, hsu.2⟩
  · obtain ⟨r, hr⟩ := hpre
    cases t₂ with
    | nil => exact h2ne rfl
    | cons f t3 =>
      simp only [List.cons_append, List.cons.injEq] at hr
      obtain ⟨rfl, -⟩ := hr
      apply hc
      rw [← ht]
      exact List.mem_append_right _ (List.mem_cons_self _ _)

/-- A pattern longer than the list never occurs in it. -/
theorem notOcc_of_length {α : Type} {t b : List α} (h : b.length < t.length) :
    ¬ t <:+: b := by
  intro hi
  obtain ⟨s, u, hsu⟩ := hi
  have hlen := congrArg List.length hsu
  simp only [List.length_append] at hlen
  omega

/-! Helper lemmas about `jsIncludes`. -/

theorem jsIncludes_left (a b : String) : jsIncludes (a ++ b) a = true := by
  apply decide_eq_true
  exact ⟨[], b.data, by simp [String.data_append]⟩

theorem jsIncludes_right (a b : String) : jsIncludes (a ++ b) b = true := by
  apply decide_eq_true
  exact ⟨a.data, [], by simp [String.data_append]⟩

theorem jsIncludes_mono_left (a b sub : String) (h : jsIncludes b sub = true) :
    jsIncludes (a ++ b) sub = true := by
  have h2 := of_decide_eq_true h
  apply decide_eq_true
  obtain ⟨s, u, hsu⟩ := h2
  exact ⟨a.data ++ s, u, by simp [String.data_append, ← hsu, List.append_assoc]⟩

theorem jsIncludes_mono_right (a b sub : String) (h : jsIncludes a sub = true) :
    jsIncludes (a ++ b) sub = true := by
  have h2 := of_decide_eq_true h
  apply decide_eq_true
  obtain ⟨s, u, hsu⟩ := h2
  exact ⟨s, u ++ b.data, by simp [String.data_append, ← hsu, List.append_assoc]⟩

/-! Character-set lemmas for the formatted amount. -/

/-- The characters that can occur in a formatted integral amount. -/
def numChars : List Char :=
  ['0', '1', '2', '3', '4', '5', '6', '7', '8', '9', ',', '-']

theorem natToDigitsRevFuel_subset (fuel : Nat) :
    ∀ n, ∀ c ∈ natToDigitsRevFuel fuel n, c ∈ numChars := by
  induction fuel with
  | zero => intro n c hc; simp [natToDigitsRevFuel] at hc
  | succ fuel ih =>
    intro n c hc
    simp only [natToDigitsRevFuel] at hc
    by_cases h : n < 10
    · rw [if_pos h] at hc
      simp only [List.mem_singleton] at hc
      subst hc
      interval_cases n <;> decide
    · rw [if_neg h] at hc
      rcases List.mem_cons.mp hc with rfl | hmem
      · have h10 : n % 10 < 10 := Nat.mod_lt _ (by omega)
        revert h10
        generalize n % 10 = m
        intro h10
        interval_cases m <;> decide
      · exact ih (n / 10) c hmem

theorem indianGroupRev_subset (l : List Char) :
    ∀ k, ∀ c ∈ indianGroupRev k l, c = ',' ∨ c ∈ l := by
  induction l with
  | nil => intro k c hc; simp [indianGroupRev] at hc
  | cons x xs ih =>
    intro k c hc
    cases k with
    | zero =>
      simp only [indianGroupRev] at hc
      rcases List.mem_cons.mp hc with rfl | hc2
      · exact Or.inl rfl
      rcases List.mem_cons.mp hc2 with rfl | hc3
      · exact Or.inr (List.mem_cons_self _ _)
      · rcases ih 1 c hc3 with h | h
        · exact Or.inl h
        · exact Or.inr (List.mem_cons_of_mem _ h)
    | succ k =>
      simp only [indianGroupRev] at hc
      rcases List.mem_cons.mp hc with rfl | hc2
      · exact Or.inr (List.mem_cons_self _ _)
      · rcases ih k c hc2 with h | h
        · exact Or.inl h
        · exact Or.inr (List.mem_cons_of_mem _ h)

theorem natLocaleEnIN_subset (n : Nat) : ∀ c ∈ (natLocaleEnIN n).data, c ∈ numChars := by
  intro c hc
  have hc2 : c ∈ (indianGroupRev 3 (natToDigitsRev n)).reverse := hc
  rw [List.mem_reverse] at hc2
  rcases indianGroupRev_subset _ 3 c hc2 with rfl | h
  · decide
  · exact natToDigitsRevFuel_subset _ _ c h

theorem intLocaleEnIN_subset (a : Int) : ∀ c ∈ (intLocaleEnIN a).data, c ∈ numChars := by
  intro c hc
  simp only [intLocaleEnIN] at hc
  by_cases hneg : a < 0
  · rw [if_pos hneg] at hc
    have hdata : ("-" ++ natLocaleEnIN a.natAbs).data
        = '-' :: (natLocaleEnIN a.natAbs).data := rfl
    rw [hdata] at hc
    rcases List.mem_cons.mp hc with rfl | h
    · decide
    · exact natLocaleEnIN_subset _ c h
  · rw [if_neg hneg] at hc
    exact natLocaleEnIN_subset _ c hc

/-- The completion-marker token never occurs inside a formatted amount. -/
theorem notOcc_marker_num (a : Int) :
    ¬ ("COLLECTION_COMPLETED".data <:+: (intLocaleEnIN a).data) := by
  intro h
  obtain ⟨s, u, hsu⟩ := h
  have hC : 'C' ∈ (intLocaleEnIN a).data := by
    rw [← hsu]
    exact List.mem_append_left _ (List.mem_append_right _ (by decide))
  have hmem := intLocaleEnIN_subset a 'C' hC
  revert hmem
  decide

/-- The completion-marker token never occurs in the part of the audit string
that follows the collection type, provided it occurs neither in the actor
name nor in the optional verification-notes part. -/
theorem marker_not_in_tail (amount : Int) (N V : List Char)
    (hN : ¬ ("COLLECTION_COMPLETED".data <:+: N))
    (hV : ¬ ("COLLECTION_COMPLETED".data <:+: V)) :
    ¬ ("COLLECTION_COMPLETED".data <:+:
       (intLocaleEnIN amount).data ++ ' ' ::
         (("completed by").data ++ ' ' :: (N ++ '.' :: ' ' :: V))) := by
  refine notOcc_append_sep (by decide) (notOcc_marker_num amount) ?_
  refine notOcc_append_sep (by decide) (by decide) ?_
  refine notOcc_append_sep (by decide) hN ?_
  show ¬ ("COLLECTION_COMPLETED".data <:+: ([] : List Char) ++ ' ' :: V)
  exact notOcc_append_sep (by decide) (notOcc_of_length (by decide)) hV

/-! Helper lemmas about filtering and sorting. -/

theorem filterTwice {α : Type} (p q : α → Bool) (l : List α) :
    (l.filter p).filter q = l.filter (fun a => p a && q a) := by
  induction l with
  | nil => rfl
  | cons x xs ih =>
    by_cases hp : p x <;> by_cases hq : q x <;>
      simp [List.filter_cons, hp, hq, ih]

theorem insertByDate_perm (r : CollectionRecord) (l : List CollectionRecord) :
    List.Perm (insertByDate r l) (r :: l) := by
  induction l with
  | nil => exact List.Perm.refl _
  | cons x xs ih =>
    simp only [insertByDate]
    by_cases h : r.collectedAt ≤ x.collectedAt
    · rw [if_pos h]
      exact (List.Perm.cons x ih).trans (List.Perm.swap r x xs)
    · rw [if_neg h]

theorem sortByDateDesc_perm (l : List CollectionRecord) :
    List.Perm (sortByDateDesc l) l := by
  induction l with
  | nil => exact List.Perm.refl _
  | cons r rs ih =>
    simp only [sortByDateDesc]
    exact (insertByDate_perm r (sortByDateDesc rs)).trans (List.Perm.cons r ih)

theorem insertByDate_sorted (r : CollectionRecord) (l : List CollectionRecord)
    (h : l.Pairwise (fun a b => b.collectedAt ≤ a.collectedAt)) :
    (insertByDate r l).Pairwise (fun a b => b.collectedAt ≤ a.collectedAt) := by
  induction l with
  | nil => simp [insertByDate]
  | cons x xs ih =>
    rcases List.pairwise_cons.mp h with ⟨hx, hxs⟩
    simp only [insertByDate]
    by_cases hcond : r.collectedAt ≤ x.collectedAt
    · rw [if_pos hcond]
      refine List.pairwise_cons.mpr ⟨?_, ih hxs⟩
      intro y hy
      have hy2 := (insertByDate_perm r xs).mem_iff.mp hy
      rcases List.mem_cons.mp hy2 with rfl | hmem
      · exact hcond
      · exact hx y hmem
    · rw [if_neg hcond]
      refine List.pairwise_cons.mpr ⟨?_, h⟩
      intro y hy
      rcases List.mem_cons.mp hy with rfl | hmem
      · omega
      · have := hx y hmem
        omega

theorem sortByDateDesc_sorted (l : List CollectionRecord) :
    (sortByDateDesc l).Pairwise (fun a b => b.collectedAt ≤ a.collectedAt) := by
  induction l with
  | nil => simp [sortByDateDesc]
  | cons r rs ih =>
    simp only [sortByDateDesc]
    exact insertByDate_sorted r _ ih

/-- The two sequential filter passes equal one pass with the conjunction of
the stand-alone predicates. -/
theorem filteredCollections_eq_filter (sF : StatusFilter) (tF : TypeFilter)
    (cols : List CollectionRecord) :
    typeFiltered tF (statusFiltered sF cols)
      = cols.filter (fun c => statusPass sF c && typePass tF c) := by
  cases sF <;> cases tF <;>
    simp [statusFiltered, typeFiltered, statusPass, typePass, filterTwice] <;>
    exact List.filter_congr (fun a _ => by rw [Bool.and_comm])

/-! Claim theorems. -/

def c1sel : CollectionRecord :=
  ⟨"o1-credit", "o1", "c1", "Acme", CollectionType.credit, 100, "Keerthi", 5,
    CollectionStatus.pending, ""⟩

def c1cust : Customer := ⟨"c1", "Acme", some 500⟩

def c1user : User := ⟨"u1", "Keerthi", "keerthi@example.lk"⟩

def c1order : Order := ⟨"o1", "c1", some "Acme", some "u1", some 100, some 0, some 5, none⟩

/-- C1: recognition appends the plain string id "o1-credit" to the cache, yet
a subsequent derivation reading exactly that cache still emits the record for
that id with status pending: the derivation maps the property access `c.id`
over the cached elements, which yields `undefined` for a plain string, so the
cached id never matches and the claimed completion marking does not happen.
This exhibits the code bug behind the claim. -/
theorem C1_recognized_id_stays_pending :
    (handleRecognizeCollection [c1cust] (some "Admin") c1sel "" [] [] none none).cache
      = [CacheEntry.str "o1-credit"]
    ∧ ((deriveCollections [c1order] [c1cust] [c1user] (some c1user)
          [CacheEntry.str "o1-credit"] 0).records.map
        (fun r => (r.id, r.status)))
      = [("o1-credit", CollectionStatus.pending)] := by
  constructor
  · rfl
  · rfl

/-- C2 counterexample: a recognition in which the customers-table update
returns an error still logs nothing, raises the success alert, appends to the
completion cache and reloads: the remaining steps are not aborted and no
failure notice is shown, contradicting the claim for the customers table. -/
theorem C2_counterexample :
    (handleRecognizeCollection [⟨"c1", "Acme", some 500⟩] (some "Admin") c1sel ""
        [] [] none (some "database error")).errorLog = []
    ∧ (handleRecognizeCollection [⟨"c1", "Acme", some 500⟩] (some "Admin") c1sel ""
        [] [] none (some "database error")).alerts
        = ["CREDIT collection of LKR 100 has been completed and all outstanding amounts updated!"]
    ∧ (handleRecognizeCollection [⟨"c1", "Acme", some 500⟩] (some "Admin") c1sel ""
        [] [] none (some "database error")).cache = [CacheEntry.str "o1-credit"]
    ∧ (handleRecognizeCollection [⟨"c1", "Acme", some 500⟩] (some "Admin") c1sel ""
        [] [] none (some "database error")).refetched = true
    ∧ (handleRecognizeCollection [⟨"c1", "Acme", some 500⟩] (some "Admin") c1sel ""
        [] [] none (some "database error")).appliedCustomerWrite = none := by
  decide

/-- C2 amended: only an error returned by the orders-table update aborts the
remaining steps, logs the error and raises the single failure notice (and
nothing is rolled back); an error returned by the customers-table update is
ignored: nothing is logged, the success alert is raised, the already-applied
order write is kept, the cache is appended to and the reload runs. -/
theorem C2_amended_error_handling (customers : List Customer) (cun : Option String)
    (sel : CollectionRecord) (vn : String) (cache : List CacheEntry)
    (cols : List CollectionRecord) (e e2 : String) (cErr : Option String) :
    (handleRecognizeCollection customers cun sel vn cache cols (some e) cErr =
      { appliedOrderWrite := none, customerUpdateIssued := none,
        appliedCustomerWrite := none, cache := cache, collections := cols,
        refetched := false,
        alerts := ["Failed to recognize collection. Please try again."],
        errorLog := ["Error recognizing collection: " ++ e],
        selectedCleared := false })
    ∧ (handleRecognizeCollection customers cun sel vn cache cols none (some e2)).errorLog = []
    ∧ (handleRecognizeCollection customers cun sel vn cache cols none (some e2)).alerts
        = [typeUpper sel.collectionType ++ " collection of "
            ++ formatCurrency sel.amount "LKR"
            ++ " has been completed and all outstanding amounts updated!"]
    ∧ (handleRecognizeCollection customers cun sel vn cache cols none (some e2)).appliedOrderWrite
        = some (updatedOrderData sel cun vn)
    ∧ (handleRecognizeCollection customers cun sel vn cache cols none (some e2)).appliedCustomerWrite
        = none
    ∧ (handleRecognizeCollection customers cun sel vn cache cols none (some e2)).cache
        = (if cache.contains (CacheEntry.str sel.id) then cache
           else cache ++ [CacheEntry.str sel.id])
    ∧ (handleRecognizeCollection customers cun sel vn cache cols none (some e2)).refetched
        = true :=
  ⟨rfl, rfl, rfl, rfl, rfl, rfl, rfl⟩

/-- C7: exporting an absent or empty record list saves no artifact, builds no
worksheet, and raises exactly the input-empty notice, for every format. -/
theorem C7_empty_export (filename sheetName : String) (fmt : ExportFormat) :
    (exportData none filename fmt sheetName).saved = none
    ∧ (exportData none filename fmt sheetName).alerts = ["No data to export"]
    ∧ (exportData none filename fmt sheetName).worksheet = none
    ∧ (exportData (some []) filename fmt sheetName).saved = none
    ∧ (exportData (some []) filename fmt sheetName).alerts = ["No data to export"]
    ∧ (exportData (some []) filename fmt sheetName).worksheet = none :=
  ⟨rfl, rfl, rfl, rfl, rfl, rfl⟩

/-- C3: during derivation an order with an unresolved customer is skipped
with a diagnostic and contributes no records; when no user matches the
assigned id the record of the authenticated user (found by email) becomes the
collector; when the collector is still unresolved the order is skipped with a
diagnostic; and each order is processed independently, so a skipped order
never aborts the derivation of the remaining orders. -/
theorem C3_join_resolution (customers : List Customer) (users : List User)
    (cu : Option User) (ids : List (Option String)) (today : Nat) (o : Order)
    (rest : List Order) (cache : List CacheEntry) :
    (customers.find? (fun c => c.id == o.customerId) = none →
      recordsForOrder customers users cu ids today o =
        ([], ["Debug - No customer found for order " ++ o.id ++ ", customerId: "
               ++ o.customerId]))
    ∧ (∀ customer u, customers.find? (fun c => c.id == o.customerId) = some customer →
        users.find? (fun v => o.assignedUserId == some v.id) = none →
        findByEmail users cu = some u →
        ∀ r ∈ (recordsForOrder customers users cu ids today o).1, r.collectedBy = u.name)
    ∧ (∀ customer, customers.find? (fun c => c.id == o.customerId) = some customer →
        resolveCollector users cu o.assignedUserId = none →
        recordsForOrder customers users cu ids today o =
          ([], ["Debug - No user found for order " ++ o.id ++ ", assignedUserId: "
                 ++ jsOptStr o.assignedUserId]))
    ∧ ((deriveCollections (o :: rest) customers users cu cache today).records
        = (recordsForOrder customers users cu (cache.map entryDotId) today o).1
          ++ (deriveCollections rest customers users cu cache today).records)
    ∧ ((deriveCollections (o :: rest) customers users cu cache today).diagnostics
        = (recordsForOrder customers users cu (cache.map entryDotId) today o).2
          ++ (deriveCollections rest customers users cu cache today).diagnostics) := by
  refine ⟨?_, ?_, ?_, rfl, rfl⟩
  · intro h
    simp [recordsForOrder, h]
  · intro customer u hc hid hem r hr
    have hrc : resolveCollector users cu o.assignedUserId = some u := by
      simp [resolveCollector, hid, hem]
    simp only [recordsForOrder, hc, hrc] at hr
    rcases List.mem_append.mp hr with h1 | h1
    · cases hcb : o.creditBalance with
      | none => simp [hcb] at h1
      | some b =>
        simp only [hcb] at h1
        by_cases hb : b ≠ 0 ∧ 0 < b
        · rw [if_pos hb] at h1
          simp only [List.mem_singleton] at h1
          subst h1
          rfl
        · rw [if_neg hb] at h1
          simp at h1
    · cases hcb : o.chequeBalance with
      | none => simp [hcb] at h1
      | some b =>
        simp only [hcb] at h1
        by_cases hb : b ≠ 0 ∧ 0 < b
        · rw [if_pos hb] at h1
          simp only [List.mem_singleton] at h1
          subst h1
          rfl
        · rw [if_neg hb] at h1
          simp at h1
  · intro customer hc hrc
    simp [recordsForOrder, hc, hrc]

/-- Witness for C3: concrete instances of the missing-customer skip, of the
email fallback to the authenticated user, and of the missing-user skip. -/
theorem C3_witness :
    recordsForOrder ([] : List Customer) [] none [] 0
        ⟨"o1", "c1", none, none, some 100, none, none, none⟩
      = ([], ["Debug - No customer found for order o1, customerId: c1"])
    ∧ (∀ r ∈ (recordsForOrder [⟨"c1", "Acme", some 0⟩]
          [⟨"u9", "Fallback", "admin@example.lk"⟩]
          (some ⟨"u7", "Admin", "admin@example.lk"⟩) [] 0
          ⟨"o2", "c1", none, some "missing", some 100, none, none, none⟩).1,
        r.collectedBy = "Fallback")
    ∧ recordsForOrder [⟨"c1", "Acme", some 0⟩] [] none [] 0
        ⟨"o3", "c1", none, none, some 100, none, none, none⟩
      = ([], ["Debug - No user found for order o3, assignedUserId: undefined"]) := by
  refine ⟨?_, ?_, ?_⟩
  · exact (C3_join_resolution [] [] none [] 0
      ⟨"o1", "c1", none, none, some 100, none, none, none⟩ [] []).1 rfl
  · intro r hr
    exact (C3_join_resolution [⟨"c1", "Acme", some 0⟩]
      [⟨"u9", "Fallback", "admin@example.lk"⟩]
      (some ⟨"u7", "Admin", "admin@example.lk"⟩) [] 0
      ⟨"o2", "c1", none, some "missing", some 100, none, none, none⟩ [] []).2.1
      ⟨"c1", "Acme", some 0⟩ ⟨"u9", "Fallback", "admin@example.lk"⟩ rfl rfl rfl r hr
  · exact (C3_join_resolution [⟨"c1", "Acme", some 0⟩] [] none [] 0
      ⟨"o3", "c1", none, none, some 100, none, none, none⟩ [] []).2.2.1
      ⟨"c1", "Acme", some 0⟩ rfl rfl

/-- C5: for an order with creditBalance 100 and chequeBalance 0 whose
customer and collector resolve and whose id has no completion signal, the
per-order derivation step yields exactly one record: the credit record with
amount 100 and status pending, and no cheque record. -/
theorem C5_single_credit_record (customers : List Customer) (users : List User)
    (cu : Option User) (ids : List (Option String)) (today : Nat) (o : Order)
    (customer : Customer) (w : User)
    (hcb : o.creditBalance = some 100)
    (hqb : o.chequeBalance = some 0)
    (hc : customers.find? (fun c => c.id == o.customerId) = some customer)
    (hw : resolveCollector users cu o.assignedUserId = some w)
    (hsig : ids.contains (some (o.id ++ "-credit")) = false)
    (hmark : notesMarker o.notes = false) :
    recordsForOrder customers users cu ids today o =
      ([{ id := o.id ++ "-credit", orderId := o.id, customerId := o.customerId,
          customerName := jsOrStr o.customerName customer.name,
          collectionType := CollectionType.credit, amount := 100,
          collectedBy := w.name, collectedAt := o.date.getD today,
          status := CollectionStatus.pending, notes := "" }], []) := by
  have hsig2 : some (o.id ++ "-credit") ∉ ids := by simpa using hsig
  simp [recordsForOrder, hc, hw, hcb, hqb, hsig2, hmark]

/-- Witness for C5 at a concrete order, customer and user. -/
theorem C5_witness :
    recordsForOrder [⟨"c1", "Acme", some 500⟩]
        [⟨"u1", "Keerthi", "keerthi@example.lk"⟩] none [] 7
        ⟨"o1", "c1", some "Acme", some "u1", some 100, some 0, some 5, none⟩
      = ([{ id := "o1-credit", orderId := "o1", customerId := "c1",
            customerName := "Acme", collectionType := CollectionType.credit,
            amount := 100, collectedBy := "Keerthi", collectedAt := 5,
            status := CollectionStatus.pending, notes := "" }], []) :=
  C5_single_credit_record [⟨"c1", "Acme", some 500⟩]
    [⟨"u1", "Keerthi", "keerthi@example.lk"⟩] none [] 7
    ⟨"o1", "c1", some "Acme", some "u1", some 100, some 0, some 5, none⟩
    ⟨"c1", "Acme", some 500⟩ ⟨"u1", "Keerthi", "keerthi@example.lk"⟩
    rfl rfl rfl rfl rfl rfl

/-- C6: for every recognition against a found customer with prior balance B
(absent treated as 0), the outstanding balance sent to the customers table is
max(0, B - amount), which is never negative. -/
theorem C6_outstanding_balance (customers : List Customer) (cun : Option String)
    (sel : CollectionRecord) (vn : String) (cache : List CacheEntry)
    (cols : List CollectionRecord) (cErr : Option String) (c : Customer)
    (hfind : customers.find? (fun x => x.id == sel.customerId) = some c) :
    (handleRecognizeCollection customers cun sel vn cache cols none cErr).customerUpdateIssued
      = some (max 0 (c.outstandingBalance.getD 0 - sel.amount))
    ∧ (0 : Int) ≤ max 0 (c.outstandingBalance.getD 0 - sel.amount) := by
  constructor
  · simp [handleRecognizeCollection, hfind]
  · exact le_max_left 0 _

def c6sel : CollectionRecord :=
  ⟨"o1-credit", "o1", "c1", "Acme", CollectionType.credit, 80, "Keerthi", 5,
    CollectionStatus.pending, ""⟩

/-- Witness for C6: prior balance 50, recognized amount 80, resulting update
value 0. -/
theorem C6_witness :
    (handleRecognizeCollection [⟨"c1", "Acme", some 50⟩] (some "Admin") c6sel "" [] []
        none none).customerUpdateIssued = some 0 := by
  have h := C6_outstanding_balance [⟨"c1", "Acme", some 50⟩] (some "Admin") c6sel "" [] []
    none ⟨"c1", "Acme", some 50⟩ rfl
  exact h.1.trans (by decide)

/-- C4: the orders-table payload of recognition carries exactly the notes
field, overwritten with the generated audit string (which contains the type,
the formatted amount, the actor name and, when nonempty, the verification
notes), plus the one balance column matching the collection type set to 0;
the other balance column is absent from the payload, and the payload is built
from the selection, actor and notes alone, so no other order field occurs in
it.  The last conjunct ties the payload to the recognition flow. -/
theorem C4_order_update_frame (sel : CollectionRecord) (cun : Option String) (vn : String) :
    (updatedOrderData sel cun vn).notes
      = auditNotes sel.collectionType sel.amount cun vn
    ∧ (sel.collectionType = CollectionType.credit →
        updatedOrderData sel cun vn =
          { notes := auditNotes sel.collectionType sel.amount cun vn,
            creditbalance := some 0, chequebalance := none })
    ∧ (sel.collectionType = CollectionType.cheque →
        updatedOrderData sel cun vn =
          { notes := auditNotes sel.collectionType sel.amount cun vn,
            creditbalance := none, chequebalance := some 0 })
    ∧ jsIncludes (auditNotes sel.collectionType sel.amount cun vn)
        (typeUpper sel.collectionType) = true
    ∧ jsIncludes (auditNotes sel.collectionType sel.amount cun vn)
        (formatCurrency sel.amount "LKR") = true
    ∧ jsIncludes (auditNotes sel.collectionType sel.amount cun vn) (jsOptStr cun) = true
    ∧ (vn ≠ "" → jsIncludes (auditNotes sel.collectionType sel.amount cun vn) vn = true)
    ∧ (∀ customers cache cols cErr,
        (handleRecognizeCollection customers cun sel vn cache cols none cErr).appliedOrderWrite
          = some (updatedOrderData sel cun vn)) := by
  refine ⟨rfl, ?_, ?_, ?_, ?_, ?_, ?_, ?_⟩
  · intro h
    simp [updatedOrderData, h]
  · intro h
    simp [updatedOrderData, h]
  · exact jsIncludes_mono_right _ _ _ (jsIncludes_mono_right _ _ _
      (jsIncludes_mono_right _ _ _ (jsIncludes_mono_right _ _ _
        (jsIncludes_mono_right _ _ _ (jsIncludes_left _ _)))))
  · exact jsIncludes_mono_right _ _ _ (jsIncludes_mono_right _ _ _
      (jsIncludes_mono_right _ _ _ (jsIncludes_mono_right _ _ _
        (jsIncludes_right _ _))))
  · exact jsIncludes_mono_right _ _ _ (jsIncludes_mono_right _ _ _
      (jsIncludes_right _ _))
  · intro hvn
    have haudit : auditNotes sel.collectionType sel.amount cun vn
        = (typeUpper sel.collectionType ++ " collection of "
            ++ formatCurrency sel.amount "LKR" ++ " completed by "
            ++ jsOptStr cun ++ ". ") ++ ("Notes: " ++ vn) := by
      simp only [auditNotes, if_pos hvn]
    rw [haudit]
    exact jsIncludes_mono_left _ _ _ (jsIncludes_right _ _)
  · intro customers cache cols cErr
    rfl

def c4sel : CollectionRecord :=
  ⟨"o1-credit", "o1", "c1", "Acme", CollectionType.credit, 100, "Keerthi", 5,
    CollectionStatus.pending, ""⟩

/-- Witness for C4 at a concrete credit selection with nonempty notes. -/
theorem C4_witness :
    updatedOrderData c4sel (some "Admin") "ok"
      = { notes := auditNotes CollectionType.credit 100 (some "Admin") "ok",
          creditbalance := some 0, chequebalance := none }
    ∧ jsIncludes (auditNotes CollectionType.credit 100 (some "Admin") "ok") "ok" = true := by
  have h := C4_order_update_frame c4sel (some "Admin") "ok"
  exact ⟨h.2.1 rfl, h.2.2.2.2.2.2.1 (by decide)⟩

/-- C8: the status filter and the type filter act independently (the filter
value "all" passes everything), the result is always sorted by collectedAt
descending, and on a sample of three credit-pending, two cheque-pending and
one cheque-complete record the pending-cheque filter returns exactly the two
cheque-pending records in descending date order. -/
theorem C8_filter_sort (sF : StatusFilter) (tF : TypeFilter) (cols : List CollectionRecord) :
    (filteredCollections sF tF cols).Perm
        (cols.filter (fun c => statusPass sF c && typePass tF c))
    ∧ (filteredCollections sF tF cols).Pairwise
        (fun a b => b.collectedAt ≤ a.collectedAt)
    ∧ filteredCollections StatusFilter.pending TypeFilter.cheque
        ([⟨"a-credit", "a", "c", "C1", CollectionType.credit, 10, "U", 10,
            CollectionStatus.pending, ""⟩,
          ⟨"b-credit", "b", "c", "C1", CollectionType.credit, 10, "U", 20,
            CollectionStatus.pending, ""⟩,
          ⟨"d-credit", "d", "c", "C1", CollectionType.credit, 10, "U", 30,
            CollectionStatus.pending, ""⟩,
          ⟨"e-cheque", "e", "c", "C1", CollectionType.cheque, 10, "U", 25,
            CollectionStatus.pending, ""⟩,
          ⟨"f-cheque", "f", "c", "C1", CollectionType.cheque, 10, "U", 15,
            CollectionStatus.pending, ""⟩,
          ⟨"g-cheque", "g", "c", "C1", CollectionType.cheque, 10, "U", 40,
            CollectionStatus.complete, ""⟩] : List CollectionRecord)
      = [⟨"e-cheque", "e", "c", "C1", CollectionType.cheque, 10, "U", 25,
            CollectionStatus.pending, ""⟩,
         ⟨"f-cheque", "f", "c", "C1", CollectionType.cheque, 10, "U", 15,
            CollectionStatus.pending, ""⟩] := by
  refine ⟨?_, sortByDateDesc_sorted _, by decide⟩
  have h := filteredCollections_eq_filter sF tF cols
  have h2 : filteredCollections sF tF cols
      = sortByDateDesc (cols.filter (fun c => statusPass sF c && typePass tF c)) := by
    simp only [filteredCollections, h]
  rw [h2]
  exact sortByDateDesc_perm _

/-- C9: for nonempty data the worksheet is the same for both formats: its
columns come from the first record's keys with width 20 and its rows are the
data; only the final encode-and-save step differs, in extension and media
type, while the saved artifact is encoded from that same worksheet. -/
theorem C9_format_agnostic (d : List (List (String × String))) (filename sheetName : String)
    (h : d ≠ []) :
    (exportData (some d) filename ExportFormat.csv sheetName).worksheet
      = (exportData (some d) filename ExportFormat.xlsx sheetName).worksheet
    ∧ (exportData (some d) filename ExportFormat.csv sheetName).worksheet
      = some { sheetName := sheetName,
               columns := (d.headD []).map (fun kv =>
                 { header := kv.1, key := kv.1, width := 20 }),
               rows := d }
    ∧ ((exportData (some d) filename ExportFormat.csv sheetName).saved.map SavedFile.source)
      = ((exportData (some d) filename ExportFormat.xlsx sheetName).saved.map SavedFile.source)
    ∧ ((exportData (some d) filename ExportFormat.csv sheetName).saved.map SavedFile.filename)
      = some (filename ++ ".csv")
    ∧ ((exportData (some d) filename ExportFormat.xlsx sheetName).saved.map SavedFile.filename)
      = some (filename ++ ".xlsx")
    ∧ ((exportData (some d) filename ExportFormat.csv sheetName).saved.map SavedFile.mime)
      = some "text/csv;charset=utf-8"
    ∧ ((exportData (some d) filename ExportFormat.xlsx sheetName).saved.map SavedFile.mime)
      = some "application/vnd.openxmlformats-officedocument.spreadsheetml.sheet" := by
  cases d with
  | nil => exact absurd rfl h
  | cons r rs =>
    refine ⟨?_, ?_, ?_, ?_, ?_, ?_, ?_⟩ <;> simp [exportData]

/-- Witness for C9 on a one-record data set. -/
theorem C9_witness :
    (exportData (some [[("Name", "A")]]) "orders" ExportFormat.csv "Data").worksheet
      = (exportData (some [[("Name", "A")]]) "orders" ExportFormat.xlsx "Data").worksheet
    ∧ (exportData (some [[("Name", "A")]]) "orders" ExportFormat.csv "Data").worksheet
      = some { sheetName := "Data",
               columns := [{ header := "Name", key := "Name", width := 20 }],
               rows := [[("Name", "A")]] } := by
  have h := C9_format_agnostic [[("Name", "A")]] "orders" "Data" (by decide)
  exact ⟨h.1, h.2.1⟩

/-- C10 counterexample: when the verification notes typed by the actor
contain the token COLLECTION_COMPLETED, the generated audit string contains
it as well, so a later derivation reading those notes sees the notes-based
completion signal: the audit string does not never contain the token. -/
theorem C10_counterexample :
    notesMarker (some (auditNotes CollectionType.credit 100 (some "Admin")
      "COLLECTION_COMPLETED")) = true := by
  decide

/-- C10 amended: the audit string contains the token COLLECTION_COMPLETED
only if the actor name or the verification notes themselves contain it; in
particular, when neither does, a recognition performed by this code never
activates the notes-based completion signal on a later derivation. -/
theorem C10_amended_no_marker (t : CollectionType) (amount : Int)
    (actor : Option String) (vn : String)
    (hname : jsIncludes (jsOptStr actor) "COLLECTION_COMPLETED" = false)
    (hvn : jsIncludes vn "COLLECTION_COMPLETED" = false) :
    notesMarker (some (auditNotes t amount actor vn)) = false := by
  have hN : ¬ ("COLLECTION_COMPLETED".data <:+: (jsOptStr actor).data) :=
    of_decide_eq_false hname
  have hvn2 : ¬ ("COLLECTION_COMPLETED".data <:+: vn.data) :=
    of_decide_eq_false hvn
  have hV : ¬ ("COLLECTION_COMPLETED".data <:+:
      ((if vn ≠ "" then "Notes: " ++ vn else "") : String).data) := by
    rcases eq_or_ne vn "" with hn | hn
    · rw [if_neg (by simp [hn])]
      exact notOcc_of_length (by decide)
    · rw [if_pos hn]
      show ¬ ("COLLECTION_COMPLETED".data <:+: ("Notes:").data ++ ' ' :: vn.data)
      exact notOcc_append_sep (by decide) (notOcc_of_length (by decide)) hvn2
  simp only [notesMarker, jsIncludes]
  apply decide_eq_false
  cases t with
  | credit =>
    simp only [auditNotes, typeUpper, formatCurrency, String.data_append,
      List.append_assoc]
    show ¬ ("COLLECTION_COMPLETED".data <:+:
      ("CREDIT collection of LKR").data ++ ' ' ::
        ((intLocaleEnIN amount).data ++ ' ' ::
          (("completed by").data ++ ' ' ::
            ((jsOptStr actor).data ++ '.' :: ' ' ::
              ((if vn ≠ "" then "Notes: " ++ vn else "") : String).data))))
    exact notOcc_append_sep (by decide) (by decide)
      (marker_not_in_tail amount _ _ hN hV)
  | cheque =>
    simp only [auditNotes, typeUpper, formatCurrency, String.data_append,
      List.append_assoc]
    show ¬ ("COLLECTION_COMPLETED".data <:+:
      ("CHEQUE collection of LKR").data ++ ' ' ::
        ((intLocaleEnIN amount).data ++ ' ' ::
          (("completed by").data ++ ' ' ::
            ((jsOptStr actor).data ++ '.' :: ' ' ::
              ((if vn ≠ "" then "Notes: " ++ vn else "") : String).data))))
    exact notOcc_append_sep (by decide) (by decide)
      (marker_not_in_tail amount _ _ hN hV)

/-- Witness for the amended C10 at a concrete recognition. -/
theorem C10_witness :
    notesMarker (some (auditNotes CollectionType.credit 100 (some "Admin") "checked"))
      = false :=
  C10_amended_no_marker CollectionType.credit 100 (some "Admin") "checked"
    (by decide) (by decide)

end Webapp
